import Mathlib

/-!
A shallow embedding of `storage.go` from the `osinredis` package: a Redis-backed
implementation of the osin OAuth2 storage interface.  The Redis engine is
modelled as a function from string keys to optional stored values; each public
operation of `Storage` becomes a Lean function that reads and/or transforms
that state explicitly.  Gob encoding/decoding is modelled by a tagged `Value`
sum: `encode` stores the structured record (failing exactly when the record
contains data gob cannot serialize), `decode` succeeds exactly when the stored
value has the shape the caller expects, mirroring gob's behaviour of matching
struct fields by name and requiring interface-typed fields to hold registered
concrete types (`init` registers only `*osin.DefaultClient`, among the client
shapes, for interface fields).
-/

set_option autoImplicit false

namespace Osinredis

/-- Models the `UserData interface{}` fields carried opaquely on records.
`unencodable` stands for a concrete value gob cannot serialize
(e.g. a channel or function), making `encode` fail. -/
inductive UserData where
  | none
  | str (s : String)
  | unencodable
  deriving DecidableEq, Repr

/-- `osin.DefaultClient`: the concrete client struct `GetClient` decodes into. -/
structure DefaultClient where
  id : String
  secret : String
  redirectUri : String
  userData : UserData
  deriving DecidableEq, Repr

/-- A value of the `osin.Client` interface: either the default implementation
or some caller-defined implementation.  `custom` models a caller struct
`struct { ClientID, Secret string }` with the interface methods: a concrete
shape other than `osin.DefaultClient`, with one gob field name (`Secret`)
in common with `DefaultClient` and its identity under a different name. -/
inductive Client where
  | default (c : DefaultClient)
  | custom (clientID : String) (secret : String)
  deriving DecidableEq, Repr

/-- `Client.GetId()` of the osin interface. -/
def Client.getId : Client → String
  | .default c => c.id
  | .custom clientID _ => clientID

/-- `osin.AuthorizeData`.  `client` is the nilable `Client` interface field;
`createdAt` stands in for the `time.Time` field, carried verbatim. -/
structure AuthorizeData where
  client : Option Client
  code : String
  expiresIn : Int
  scope : String
  redirectUri : String
  state : String
  createdAt : Int
  userData : UserData
  deriving DecidableEq, Repr

/-- `osin.AccessData`.  Recursive because the Go struct embeds a
`*osin.AccessData` parent pointer; `client` is the `Client` interface field
(the code dereferences it unconditionally, so it is modelled non-nil). -/
inductive AccessData where
  | mk (client : Client) (authorizeData : Option AuthorizeData)
      (parent : Option AccessData) (accessToken : String)
      (refreshToken : String) (expiresIn : Int) (scope : String)
      (redirectUri : String) (createdAt : Int) (userData : UserData)

def AccessData.client : AccessData → Client
  | .mk c _ _ _ _ _ _ _ _ _ => c

def AccessData.authorizeData : AccessData → Option AuthorizeData
  | .mk _ ad _ _ _ _ _ _ _ _ => ad

def AccessData.parent : AccessData → Option AccessData
  | .mk _ _ p _ _ _ _ _ _ _ => p

def AccessData.accessToken : AccessData → String
  | .mk _ _ _ at1 _ _ _ _ _ _ => at1

def AccessData.refreshToken : AccessData → String
  | .mk _ _ _ _ rt _ _ _ _ _ => rt

def AccessData.expiresIn : AccessData → Int
  | .mk _ _ _ _ _ e _ _ _ _ => e

def AccessData.scope : AccessData → String
  | .mk _ _ _ _ _ _ sc _ _ _ => sc

def AccessData.redirectUri : AccessData → String
  | .mk _ _ _ _ _ _ _ ru _ _ => ru

def AccessData.createdAt : AccessData → Int
  | .mk _ _ _ _ _ _ _ _ ca _ => ca

def AccessData.userData : AccessData → UserData
  | .mk _ _ _ _ _ _ _ _ _ ud => ud

/-- `access.Client = c` (the in-place mutation done by `refreshAccessClients`). -/
def AccessData.setClient : AccessData → Client → AccessData
  | .mk _ ad p at1 rt e sc ru ca ud, c => .mk c ad p at1 rt e sc ru ca ud

/-- `access.AuthorizeData.Client = c` (the nested in-place mutation done by
`refreshAccessClients`); identity when there is no embedded AuthorizeData. -/
def AccessData.setAuthClient : AccessData → Option Client → AccessData
  | .mk c (some ad) p at1 rt e sc ru ca ud, oc =>
      .mk c (some { ad with client := oc }) p at1 rt e sc ru ca ud
  | d, _ => d

/-- A value held at a Redis key: either a plain string (the `accessID`
pointer values) or the gob-encoded bytes of one of the record shapes. -/
inductive Value where
  | str (s : String)
  | clientBlob (c : Client)
  | authBlob (a : AuthorizeData)
  | accessBlob (d : AccessData)

/-- The Redis key space: each string key holds at most one value.
TTLs (from SETEX) are not tracked; an expired key is simply absent. -/
def RedisState : Type := String → Option Value

/-- SET: bind a key, overwriting. -/
def RedisState.set (s : RedisState) (k : String) (v : Value) : RedisState :=
  fun q => if q = k then some v else s q

/-- DEL: unbind a key; deleting an absent key is a no-op. -/
def RedisState.del (s : RedisState) (k : String) : RedisState :=
  fun q => if q = k then none else s q

/-- The empty key space. -/
def RedisState.empty : RedisState := fun _ => Option.none

/-- The error outcomes distinguished by the code.  Wrapping contexts
(`errors.Wrap` messages) are dropped; `notFound` is redigo's `ErrNil` from
`redis.String`/`redis.Bytes` on an absent key, `expired` is the explicit
`errors.New("token is expired")`, `backend` an engine-reported failure. -/
inductive Err where
  | notFound
  | expired
  | encodeError
  | decodeError
  | backend
  deriving DecidableEq, Repr

/-- Whether a `UserData` value survives gob encoding. -/
def UserData.encodable : UserData → Bool
  | .unencodable => false
  | _ => true

/-- Encodability of a client value held in an interface-typed FIELD of another
record: gob requires the concrete type to be registered, and `init` registers
only `*osin.DefaultClient`, so a custom implementation fails there. -/
def Client.encodableEmbedded : Client → Bool
  | .default c => c.userData.encodable
  | .custom _ _ => false

/-- Encodability of a client passed to top-level `encode` (in `CreateClient`):
the concrete type is encoded directly, no registration needed. -/
def Client.encodableTop : Client → Bool
  | .default c => c.userData.encodable
  | .custom _ _ => true

def AuthorizeData.encodable (a : AuthorizeData) : Bool :=
  (match a.client with
    | some c => c.encodableEmbedded
    | Option.none => true) && a.userData.encodable

def AccessData.encodable : AccessData → Bool
  | .mk c ad p _ _ _ _ _ _ ud =>
      c.encodableEmbedded &&
      (match ad with
        | some a => a.encodable
        | Option.none => true) &&
      (match p with
        | some q => q.encodable
        | Option.none => true) &&
      ud.encodable

/-- `encode(client)` as called by `CreateClient`. -/
def encodeClient (c : Client) : Option Value :=
  if c.encodableTop then some (.clientBlob c) else Option.none

/-- `encode(data)` as called by `SaveAuthorize`. -/
def encodeAuth (a : AuthorizeData) : Option Value :=
  if a.encodable then some (.authBlob a) else Option.none

/-- `encode(data)` as called by `SaveAccess`. -/
def encodeAccess (d : AccessData) : Option Value :=
  if d.encodable then some (.accessBlob d) else Option.none

/-- gob-decoding a stored client blob into a `var client osin.DefaultClient`:
fields are matched by name, absent names are left at their zero value, extra
names in the stream are ignored.  Of the modelled custom shape only `Secret`
matches a `DefaultClient` field. -/
def gobAsDefaultClient : Client → DefaultClient
  | .default c => c
  | .custom _ secret => { id := "", secret := secret, redirectUri := "", userData := .none }

/-- `decode(clientGob, &client)` with `client : osin.DefaultClient`:
a non-client gob stream fails the type check. -/
def decodeDefaultClient : Value → Except Err DefaultClient
  | .clientBlob c => .ok (gobAsDefaultClient c)
  | _ => .error .decodeError

/-- `decode(authGob, &auth)` with `auth : osin.AuthorizeData`. -/
def decodeAuthData : Value → Except Err AuthorizeData
  | .authBlob a => .ok a
  | _ => .error .decodeError

/-- `decode(accessGob, &access)` with `access : osin.AccessData`. -/
def decodeAccessData : Value → Except Err AccessData
  | .accessBlob d => .ok d
  | _ => .error .decodeError

/-- `redis.String(conn.Do("GET", key))`: `ErrNil` on an absent key, otherwise
the stored bytes as a string.  A gob blob read as a string yields its raw
bytes, which the code never meaningfully inspects; modelled opaquely. -/
def redisString : Option Value → Except Err String
  | Option.none => .error .notFound
  | some (.str s) => .ok s
  | some _ => .ok ""

/-- `redis.Bytes(conn.Do("GET", key))`: `ErrNil` on an absent key, otherwise
the stored bytes (kept in structured form; `decode*` interprets them). -/
def redisBytes : Option Value → Except Err Value
  | Option.none => .error .notFound
  | some v => .ok v

/-- The `Storage` struct.  The connection pool is connection plumbing with no
bearing on the key-space semantics and is not modelled; `keyPfx` is the
`keyPrefix` field. -/
structure Storage where
  keyPfx : String

/-- `makeKey`: `fmt.Sprintf("%s:%s:%s", s.keyPrefix, namespace, id)`. -/
def Storage.makeKey (s : Storage) (ns id : String) : String :=
  s.keyPfx ++ ":" ++ ns ++ ":" ++ id

/-- The namespace tags `makeKey` is actually called with in `storage.go`. -/
def namespaceTags : List String :=
  ["client", "auth", "access", "access_token", "refresh_token"]

/-- `CreateClient`: encode, then SET under `client:<id>`. -/
def Storage.CreateClient (s : Storage) (st : RedisState) (client : Client) :
    Except Err Unit × RedisState :=
  match encodeClient client with
  | Option.none => (.error .encodeError, st)
  | some payload => (.ok (), st.set (s.makeKey "client" client.getId) payload)

/-- `GetClient`: GET `client:<id>`, decode into `osin.DefaultClient`. -/
def Storage.GetClient (s : Storage) (st : RedisState) (id : String) :
    Except Err DefaultClient :=
  match redisBytes (st (s.makeKey "client" id)) with
  | .error e => .error e
  | .ok v => decodeDefaultClient v

/-- `UpdateClient`: delegates to `CreateClient` (unconditional overwrite). -/
def Storage.UpdateClient (s : Storage) (st : RedisState) (client : Client) :
    Except Err Unit × RedisState :=
  s.CreateClient st client

/-- `DeleteClient`: DEL `client:<id>`. -/
def Storage.DeleteClient (s : Storage) (st : RedisState) (client : Client) :
    Except Err Unit × RedisState :=
  (.ok (), st.del (s.makeKey "client" client.getId))

/-- `SaveAuthorize`: encode, then SETEX `auth:<code>` with TTL
`data.ExpiresIn` (Redis rejects a non-positive TTL). -/
def Storage.SaveAuthorize (s : Storage) (st : RedisState) (data : AuthorizeData) :
    Except Err Unit × RedisState :=
  match encodeAuth data with
  | Option.none => (.error .encodeError, st)
  | some payload =>
    if data.expiresIn ≤ 0 then (.error .backend, st)
    else (.ok (), st.set (s.makeKey "auth" data.code) payload)

/-- `LoadAuthorize`: GET `auth:<code>`; a nil reply is reported as the
explicit "token is expired" error, otherwise decode. -/
def Storage.LoadAuthorize (s : Storage) (st : RedisState) (code : String) :
    Except Err AuthorizeData :=
  match st (s.makeKey "auth" code) with
  | Option.none => .error .expired
  | some v => decodeAuthData v

/-- `RemoveAuthorize`: DEL `auth:<code>`. -/
def Storage.RemoveAuthorize (s : Storage) (st : RedisState) (code : String) :
    Except Err Unit × RedisState :=
  (.ok (), st.del (s.makeKey "auth" code))

/-- `SaveAccess`: encode, then three SETs in order — the record under
`access:<accessID>`, the pointer `access_token:<data.AccessToken>`, and the
pointer `refresh_token:<data.RefreshToken>` (written unconditionally, whatever
the refresh token string is).  The freshly generated `uuid.NewV4()` is passed
in as the `accessID` argument. -/
def Storage.SaveAccess (s : Storage) (accessID : String) (st : RedisState)
    (data : AccessData) : Except Err Unit × RedisState :=
  match encodeAccess data with
  | Option.none => (.error .encodeError, st)
  | some payload =>
    let st1 := st.set (s.makeKey "access" accessID) payload
    let st2 := st1.set (s.makeKey "access_token" data.accessToken) (.str accessID)
    let st3 := st2.set (s.makeKey "refresh_token" data.refreshToken) (.str accessID)
    (.ok (), st3)

/-- `loadAccessImpl`: GET the pointer key as a string `accessID`, GET
`access:<accessID>`, decode into `osin.AccessData`. -/
def Storage.loadAccessImpl (s : Storage) (st : RedisState) (key : String) :
    Except Err AccessData :=
  match redisString (st key) with
  | .error e => .error e
  | .ok accessID =>
    match redisBytes (st (s.makeKey "access" accessID)) with
    | .error e => .error e
    | .ok v => decodeAccessData v

/-- `refreshAccessClients`: re-fetch `access.Client` from the client registry
by its id, and, when an embedded AuthorizeData with a non-nil client is
present, re-fetch that client too; any failure aborts the load. -/
def Storage.refreshAccessClients (s : Storage) (st : RedisState)
    (access : AccessData) : Except Err AccessData :=
  match s.GetClient st (access.client.getId) with
  | .error e => .error e
  | .ok c =>
    let access1 := access.setClient (.default c)
    match access1.authorizeData with
    | some ad =>
      match ad.client with
      | some adc =>
        match s.GetClient st adc.getId with
        | .error e => .error e
        | .ok c2 => .ok (access1.setAuthClient (some (.default c2)))
      | Option.none => .ok access1
    | Option.none => .ok access1

/-- `loadAndRefreshAccess`: load then hydrate. -/
def Storage.loadAndRefreshAccess (s : Storage) (st : RedisState) (key : String) :
    Except Err AccessData :=
  match s.loadAccessImpl st key with
  | .error e => .error e
  | .ok access => s.refreshAccessClients st access

/-- `LoadAccess`: load-and-hydrate via the `access_token:<token>` pointer. -/
def Storage.LoadAccess (s : Storage) (st : RedisState) (token : String) :
    Except Err AccessData :=
  s.loadAndRefreshAccess st (s.makeKey "access_token" token)

/-- `LoadRefresh`: load-and-hydrate via the `refresh_token:<token>` pointer. -/
def Storage.LoadRefresh (s : Storage) (st : RedisState) (token : String) :
    Except Err AccessData :=
  s.loadAndRefreshAccess st (s.makeKey "refresh_token" token)

/-- `removeAccessImpl`: GET the pointer key for the `accessID`, load the full
record (to learn both tokens), then DEL the record key and both pointer keys.
Any failure before the deletes returns with the state untouched. -/
def Storage.removeAccessImpl (s : Storage) (st : RedisState) (key : String) :
    Except Err Unit × RedisState :=
  match redisString (st key) with
  | .error e => (.error e, st)
  | .ok accessID =>
    match s.loadAccessImpl st key with
    | .error e => (.error e, st)
    | .ok access =>
      let st1 := st.del (s.makeKey "access" accessID)
      let st2 := st1.del (s.makeKey "access_token" access.accessToken)
      let st3 := st2.del (s.makeKey "refresh_token" access.refreshToken)
      (.ok (), st3)

/-- `RemoveAccess`: cascade removal via the access-token pointer. -/
def Storage.RemoveAccess (s : Storage) (st : RedisState) (token : String) :
    Except Err Unit × RedisState :=
  s.removeAccessImpl st (s.makeKey "access_token" token)

/-- `RemoveRefresh`: cascade removal via the refresh-token pointer. -/
def Storage.RemoveRefresh (s : Storage) (st : RedisState) (token : String) :
    Except Err Unit × RedisState :=
  s.removeAccessImpl st (s.makeKey "refresh_token" token)

/-! ### Basic facts about the modelled key space -/

theorem RedisState.set_self (s : RedisState) (k : String) (v : Value) :
    (s.set k v) k = some v := by
  simp [RedisState.set]

theorem RedisState.set_ne (s : RedisState) (k : String) (v : Value) (q : String)
    (h : q ≠ k) : (s.set k v) q = s q := by
  simp [RedisState.set, h]

theorem RedisState.del_self (s : RedisState) (k : String) :
    (s.del k) k = Option.none := by
  simp [RedisState.del]

theorem RedisState.del_ne (s : RedisState) (k : String) (q : String)
    (h : q ≠ k) : (s.del k) q = s q := by
  simp [RedisState.del, h]

/-! ### Injectivity of `makeKey` over colon-free namespace tags -/

theorem colon_split_inj (l1 : List Char) : ∀ (l2 r1 r2 : List Char),
    ':' ∉ l1 → ':' ∉ l2 → l1 ++ ':' :: r1 = l2 ++ ':' :: r2 →
    l1 = l2 ∧ r1 = r2 := by
  induction l1 with
  | nil =>
    intro l2 r1 r2 _ h2 h
    cases l2 with
    | nil => simpa using h
    | cons b bs =>
      exfalso
      simp only [List.nil_append, List.cons_append, List.cons.injEq] at h
      exact h2 (h.1 ▸ List.mem_cons_self b bs)
  | cons a as ih =>
    intro l2 r1 r2 h1 h2 h
    cases l2 with
    | nil =>
      exfalso
      simp only [List.nil_append, List.cons_append, List.cons.injEq] at h
      exact h1 (h.1 ▸ List.mem_cons_self a as)
    | cons b bs =>
      simp only [List.cons_append, List.cons.injEq] at h
      have h1' : ':' ∉ as := fun hm => h1 (List.mem_cons_of_mem a hm)
      have h2' : ':' ∉ bs := fun hm => h2 (List.mem_cons_of_mem b hm)
      obtain ⟨hab, htail⟩ := h
      obtain ⟨hl, hr⟩ := ih bs r1 r2 h1' h2' htail
      exact ⟨by rw [hab, hl], hr⟩

theorem makeKey_data (s : Storage) (ns id : String) :
    (s.makeKey ns id).data = s.keyPfx.data ++ ':' :: (ns.data ++ ':' :: id.data) := by
  simp [Storage.makeKey, String.data_append]

theorem makeKey_inj (s : Storage) (ns1 id1 ns2 id2 : String)
    (h1 : ':' ∉ ns1.data) (h2 : ':' ∉ ns2.data)
    (h : s.makeKey ns1 id1 = s.makeKey ns2 id2) : ns1 = ns2 ∧ id1 = id2 := by
  have hd : (s.makeKey ns1 id1).data = (s.makeKey ns2 id2).data := by rw [h]
  rw [makeKey_data, makeKey_data] at hd
  have hd' := List.append_cancel_left hd
  have hd'' : ns1.data ++ ':' :: id1.data = ns2.data ++ ':' :: id2.data :=
    (List.cons.inj hd').2
  obtain ⟨hns, hid⟩ := colon_split_inj ns1.data ns2.data id1.data id2.data h1 h2 hd''
  exact ⟨String.ext hns, String.ext hid⟩

theorem makeKey_ne (s : Storage) {ns1 ns2 : String} (id1 id2 : String)
    (h1 : ':' ∉ ns1.data) (h2 : ':' ∉ ns2.data) (hne : ns1 ≠ ns2) :
    s.makeKey ns1 id1 ≠ s.makeKey ns2 id2 := fun h =>
  hne (makeKey_inj s ns1 id1 ns2 id2 h1 h2 h).1

theorem tag_colon_free : ∀ ns ∈ namespaceTags, ':' ∉ ns.data := by decide

theorem key_ne_at_rt (s : Storage) (a b : String) :
    s.makeKey "access_token" a ≠ s.makeKey "refresh_token" b :=
  makeKey_ne s a b (by decide) (by decide) (by decide)

theorem key_ne_acc_at (s : Storage) (a b : String) :
    s.makeKey "access" a ≠ s.makeKey "access_token" b :=
  makeKey_ne s a b (by decide) (by decide) (by decide)

theorem key_ne_acc_rt (s : Storage) (a b : String) :
    s.makeKey "access" a ≠ s.makeKey "refresh_token" b :=
  makeKey_ne s a b (by decide) (by decide) (by decide)

theorem key_ne_acc_client (s : Storage) (a b : String) :
    s.makeKey "access" a ≠ s.makeKey "client" b :=
  makeKey_ne s a b (by decide) (by decide) (by decide)

theorem key_ne_at_client (s : Storage) (a b : String) :
    s.makeKey "access_token" a ≠ s.makeKey "client" b :=
  makeKey_ne s a b (by decide) (by decide) (by decide)

theorem key_ne_rt_client (s : Storage) (a b : String) :
    s.makeKey "refresh_token" a ≠ s.makeKey "client" b :=
  makeKey_ne s a b (by decide) (by decide) (by decide)

/-! ### The key space after a successful `SaveAccess` -/

theorem saveAccess_result (s : Storage) (aid : String) (st : RedisState)
    (d : AccessData) (h : d.encodable = true) :
    s.SaveAccess aid st d =
      (.ok (), ((st.set (s.makeKey "access" aid) (.accessBlob d)).set
          (s.makeKey "access_token" d.accessToken) (.str aid)).set
          (s.makeKey "refresh_token" d.refreshToken) (.str aid)) := by
  simp [Storage.SaveAccess, encodeAccess, h]

theorem saveAccess_reads (s : Storage) (aid : String) (st : RedisState)
    (d : AccessData) (h : d.encodable = true) :
    (s.SaveAccess aid st d).2 (s.makeKey "access_token" d.accessToken) = some (.str aid) ∧
    (s.SaveAccess aid st d).2 (s.makeKey "refresh_token" d.refreshToken) = some (.str aid) ∧
    (s.SaveAccess aid st d).2 (s.makeKey "access" aid) = some (.accessBlob d) := by
  rw [saveAccess_result s aid st d h]
  dsimp only
  refine ⟨?_, ?_, ?_⟩
  · rw [RedisState.set_ne _ _ _ _ (key_ne_at_rt s _ _), RedisState.set_self]
  · rw [RedisState.set_self]
  · rw [RedisState.set_ne _ _ _ _ (key_ne_acc_rt s _ _),
      RedisState.set_ne _ _ _ _ (key_ne_acc_at s _ _), RedisState.set_self]

theorem saveAccess_other (s : Storage) (aid : String) (st : RedisState)
    (d : AccessData) (q : String) (h : d.encodable = true)
    (h1 : q ≠ s.makeKey "access" aid)
    (h2 : q ≠ s.makeKey "access_token" d.accessToken)
    (h3 : q ≠ s.makeKey "refresh_token" d.refreshToken) :
    (s.SaveAccess aid st d).2 q = st q := by
  rw [saveAccess_result s aid st d h]
  dsimp only
  rw [RedisState.set_ne _ _ _ _ h3, RedisState.set_ne _ _ _ _ h2,
    RedisState.set_ne _ _ _ _ h1]

theorem loadAccessImpl_save_at (s : Storage) (aid : String) (st : RedisState)
    (d : AccessData) (h : d.encodable = true) :
    s.loadAccessImpl (s.SaveAccess aid st d).2 (s.makeKey "access_token" d.accessToken) =
      .ok d := by
  obtain ⟨h1, h2, h3⟩ := saveAccess_reads s aid st d h
  simp [Storage.loadAccessImpl, h1, h3, redisString, redisBytes, decodeAccessData]

theorem loadAccessImpl_save_rt (s : Storage) (aid : String) (st : RedisState)
    (d : AccessData) (h : d.encodable = true) :
    s.loadAccessImpl (s.SaveAccess aid st d).2 (s.makeKey "refresh_token" d.refreshToken) =
      .ok d := by
  obtain ⟨h1, h2, h3⟩ := saveAccess_reads s aid st d h
  simp [Storage.loadAccessImpl, h2, h3, redisString, redisBytes, decodeAccessData]

/-! ### Accessor behaviour of the hydration updates -/

@[simp] theorem setClient_client (d : AccessData) (c : Client) :
    (d.setClient c).client = c := by
  cases d; rfl

@[simp] theorem setClient_authorizeData (d : AccessData) (c : Client) :
    (d.setClient c).authorizeData = d.authorizeData := by
  cases d; rfl

@[simp] theorem setClient_parent (d : AccessData) (c : Client) :
    (d.setClient c).parent = d.parent := by
  cases d; rfl

@[simp] theorem setClient_accessToken (d : AccessData) (c : Client) :
    (d.setClient c).accessToken = d.accessToken := by
  cases d; rfl

@[simp] theorem setClient_refreshToken (d : AccessData) (c : Client) :
    (d.setClient c).refreshToken = d.refreshToken := by
  cases d; rfl

@[simp] theorem setClient_expiresIn (d : AccessData) (c : Client) :
    (d.setClient c).expiresIn = d.expiresIn := by
  cases d; rfl

@[simp] theorem setClient_scope (d : AccessData) (c : Client) :
    (d.setClient c).scope = d.scope := by
  cases d; rfl

@[simp] theorem setClient_redirectUri (d : AccessData) (c : Client) :
    (d.setClient c).redirectUri = d.redirectUri := by
  cases d; rfl

@[simp] theorem setClient_createdAt (d : AccessData) (c : Client) :
    (d.setClient c).createdAt = d.createdAt := by
  cases d; rfl

@[simp] theorem setClient_userData (d : AccessData) (c : Client) :
    (d.setClient c).userData = d.userData := by
  cases d; rfl

@[simp] theorem setAuthClient_client (d : AccessData) (oc : Option Client) :
    (d.setAuthClient oc).client = d.client := by
  rcases d with ⟨c, ad, p, at1, rt, e, sc, ru, ca, ud⟩; cases ad <;> rfl

@[simp] theorem setAuthClient_parent (d : AccessData) (oc : Option Client) :
    (d.setAuthClient oc).parent = d.parent := by
  rcases d with ⟨c, ad, p, at1, rt, e, sc, ru, ca, ud⟩; cases ad <;> rfl

@[simp] theorem setAuthClient_accessToken (d : AccessData) (oc : Option Client) :
    (d.setAuthClient oc).accessToken = d.accessToken := by
  rcases d with ⟨c, ad, p, at1, rt, e, sc, ru, ca, ud⟩; cases ad <;> rfl

@[simp] theorem setAuthClient_refreshToken (d : AccessData) (oc : Option Client) :
    (d.setAuthClient oc).refreshToken = d.refreshToken := by
  rcases d with ⟨c, ad, p, at1, rt, e, sc, ru, ca, ud⟩; cases ad <;> rfl

@[simp] theorem setAuthClient_expiresIn (d : AccessData) (oc : Option Client) :
    (d.setAuthClient oc).expiresIn = d.expiresIn := by
  rcases d with ⟨c, ad, p, at1, rt, e, sc, ru, ca, ud⟩; cases ad <;> rfl

@[simp] theorem setAuthClient_scope (d : AccessData) (oc : Option Client) :
    (d.setAuthClient oc).scope = d.scope := by
  rcases d with ⟨c, ad, p, at1, rt, e, sc, ru, ca, ud⟩; cases ad <;> rfl

@[simp] theorem setAuthClient_redirectUri (d : AccessData) (oc : Option Client) :
    (d.setAuthClient oc).redirectUri = d.redirectUri := by
  rcases d with ⟨c, ad, p, at1, rt, e, sc, ru, ca, ud⟩; cases ad <;> rfl

@[simp] theorem setAuthClient_createdAt (d : AccessData) (oc : Option Client) :
    (d.setAuthClient oc).createdAt = d.createdAt := by
  rcases d with ⟨c, ad, p, at1, rt, e, sc, ru, ca, ud⟩; cases ad <;> rfl

@[simp] theorem setAuthClient_userData (d : AccessData) (oc : Option Client) :
    (d.setAuthClient oc).userData = d.userData := by
  rcases d with ⟨c, ad, p, at1, rt, e, sc, ru, ca, ud⟩; cases ad <;> rfl

/-! ### Client-registry helper lemmas -/

theorem createClient_result (s : Storage) (st : RedisState) (c : Client)
    (h : c.encodableTop = true) :
    s.CreateClient st c = (.ok (), st.set (s.makeKey "client" c.getId) (.clientBlob c)) := by
  simp [Storage.CreateClient, encodeClient, h]

theorem getClient_set_self (s : Storage) (st : RedisState) (c : Client) (id : String)
    (hid : id = c.getId) :
    s.GetClient (st.set (s.makeKey "client" c.getId) (.clientBlob c)) id =
      .ok (gobAsDefaultClient c) := by
  subst hid
  simp [Storage.GetClient, RedisState.set_self, redisBytes, decodeDefaultClient]

/-! ### Concrete fixtures for closed evaluations -/

/-- A concrete store with key prefix `"p"`. -/
def storP : Storage := ⟨"p"⟩

/-- A concrete registered client. -/
def dcC1 : DefaultClient := ⟨"c1", "s1", "http://cb", .none⟩

/-- A concrete access record whose refresh token is the empty string. -/
def accNoRefresh : AccessData :=
  .mk (.default dcC1) Option.none Option.none "at1" "" 3600 "everything" "http://cb" 7 .none

/-- A concrete access record with both tokens set. -/
def accBoth : AccessData :=
  .mk (.default dcC1) Option.none Option.none "at1" "rt1" 3600 "everything" "http://cb" 7 .none

/-- A concrete authorize record referencing client `"c1"`. -/
def adC1 : AuthorizeData :=
  { client := some (.default dcC1), code := "code1", expiresIn := 60, scope := "",
    redirectUri := "", state := "", createdAt := 0, userData := .none }

/-- A concrete authorize record with a nil client reference. -/
def adNoClient : AuthorizeData :=
  { client := Option.none, code := "code2", expiresIn := 60, scope := "",
    redirectUri := "", state := "", createdAt := 0, userData := .none }

/-- A concrete access record embedding `adC1` (whose client is `"c1"`). -/
def accWithAuth : AccessData :=
  .mk (.default dcC1) (some adC1) Option.none "at2" "rt2" 3600 "everything" "http://cb" 7 .none

/-- A concrete access record embedding `adNoClient` (no embedded client). -/
def accAuthNoClient : AccessData :=
  .mk (.default dcC1) (some adNoClient) Option.none "at3" "rt3" 3600 "everything" "http://cb"
    7 .none

/-- Fresh attributes for client `"c1"`, used to overwrite `dcC1`. -/
def cNew : Client := .default ⟨"c1", "s2", "http://new", .none⟩

/-- A concrete authorize record whose opaque user data gob cannot encode. -/
def authBad : AuthorizeData :=
  { client := Option.none, code := "code1", expiresIn := 60, scope := "", redirectUri := "",
    state := "", createdAt := 0, userData := .unencodable }

/-! ### The claims -/

/-- Claim C1, counterexample: for the record `accNoRefresh`, whose
`refreshToken` is the empty string, a successful `SaveAccess` nevertheless
writes a `refresh_token:` pointer entry (under the empty identifier) — the
write at the end of `SaveAccess` is unconditional, so the claim that no
refresh-token pointer is written for an empty refresh token is false. -/
theorem C1_counterexample :
    accNoRefresh.refreshToken = "" ∧
    (storP.SaveAccess "u1" RedisState.empty accNoRefresh).1 = .ok () ∧
    (storP.SaveAccess "u1" RedisState.empty accNoRefresh).2 "p:refresh_token:" =
      some (.str "u1") :=
  ⟨rfl, rfl, rfl⟩

/-- Claim C1, amended: a successful `SaveAccess` of a record with an empty
`refreshToken` writes THREE entries — the record under `access:<accessID>`,
the pointer `access_token:<accessToken>`, and a `refresh_token:` pointer under
the empty identifier; the refresh-token pointer write is unconditional. -/
theorem C1_save_empty_refresh (s : Storage) (aid : String) (st : RedisState)
    (d : AccessData) (h : d.encodable = true) (hrt : d.refreshToken = "") :
    (s.SaveAccess aid st d).1 = .ok () ∧
    (s.SaveAccess aid st d).2 (s.makeKey "access" aid) = some (.accessBlob d) ∧
    (s.SaveAccess aid st d).2 (s.makeKey "access_token" d.accessToken) = some (.str aid) ∧
    (s.SaveAccess aid st d).2 (s.makeKey "refresh_token" "") = some (.str aid) := by
  obtain ⟨h1, h2, h3⟩ := saveAccess_reads s aid st d h
  refine ⟨?_, h3, h1, ?_⟩
  · rw [saveAccess_result s aid st d h]
  · rw [← hrt]; exact h2

/-- Claim C1, witness: the amended statement evaluated on `accNoRefresh`. -/
theorem C1_save_empty_refresh_witness :
    (accNoRefresh.encodable = true ∧ accNoRefresh.refreshToken = "") ∧
    ((storP.SaveAccess "u1" RedisState.empty accNoRefresh).1 = .ok () ∧
     (storP.SaveAccess "u1" RedisState.empty accNoRefresh).2 (storP.makeKey "access" "u1") =
       some (.accessBlob accNoRefresh) ∧
     (storP.SaveAccess "u1" RedisState.empty accNoRefresh).2
       (storP.makeKey "access_token" accNoRefresh.accessToken) = some (.str "u1") ∧
     (storP.SaveAccess "u1" RedisState.empty accNoRefresh).2 (storP.makeKey "refresh_token" "") =
       some (.str "u1")) :=
  ⟨⟨rfl, rfl⟩, C1_save_empty_refresh storP "u1" RedisState.empty accNoRefresh rfl rfl⟩

/-- Claim C2: after a successful `SaveAccess` of a record, `RemoveAccess` of
its access token succeeds, deleting all three entries, and afterwards both
`LoadAccess` of the access token and `LoadRefresh` of the refresh token fail
with the not-found error (the pointer GET reports `ErrNil`). -/
theorem C2_cascade_delete (s : Storage) (aid : String) (st : RedisState)
    (d : AccessData) (h : d.encodable = true) :
    (s.SaveAccess aid st d).1 = .ok () ∧
    (s.RemoveAccess (s.SaveAccess aid st d).2 d.accessToken).1 = .ok () ∧
    s.LoadAccess (s.RemoveAccess (s.SaveAccess aid st d).2 d.accessToken).2
      d.accessToken = .error .notFound ∧
    s.LoadRefresh (s.RemoveAccess (s.SaveAccess aid st d).2 d.accessToken).2
      d.refreshToken = .error .notFound := by
  obtain ⟨hat, hrt, hacc⟩ := saveAccess_reads s aid st d h
  have hload := loadAccessImpl_save_at s aid st d h
  have hrem : s.RemoveAccess (s.SaveAccess aid st d).2 d.accessToken =
      (.ok (), (((s.SaveAccess aid st d).2.del (s.makeKey "access" aid)).del
        (s.makeKey "access_token" d.accessToken)).del
        (s.makeKey "refresh_token" d.refreshToken)) := by
    simp [Storage.RemoveAccess, Storage.removeAccessImpl, hat, redisString, hload]
  have hkat : ((((s.SaveAccess aid st d).2.del (s.makeKey "access" aid)).del
      (s.makeKey "access_token" d.accessToken)).del
      (s.makeKey "refresh_token" d.refreshToken))
      (s.makeKey "access_token" d.accessToken) = Option.none := by
    rw [RedisState.del_ne _ _ _ (key_ne_at_rt s _ _), RedisState.del_self]
  have hkrt : ((((s.SaveAccess aid st d).2.del (s.makeKey "access" aid)).del
      (s.makeKey "access_token" d.accessToken)).del
      (s.makeKey "refresh_token" d.refreshToken))
      (s.makeKey "refresh_token" d.refreshToken) = Option.none := by
    rw [RedisState.del_self]
  refine ⟨by rw [saveAccess_result s aid st d h], by rw [hrem], ?_, ?_⟩
  · rw [hrem]
    dsimp only
    simp [Storage.LoadAccess, Storage.loadAndRefreshAccess, Storage.loadAccessImpl,
      hkat, redisString]
  · rw [hrem]
    dsimp only
    simp [Storage.LoadRefresh, Storage.loadAndRefreshAccess, Storage.loadAccessImpl,
      hkrt, redisString]

/-- Claim C2, witness: the cascade evaluated on the concrete record `accBoth`
saved under access id `"u1"` in the empty key space. -/
theorem C2_cascade_delete_witness :
    accBoth.encodable = true ∧
    ((storP.SaveAccess "u1" RedisState.empty accBoth).1 = .ok () ∧
     (storP.RemoveAccess (storP.SaveAccess "u1" RedisState.empty accBoth).2
       accBoth.accessToken).1 = .ok () ∧
     storP.LoadAccess (storP.RemoveAccess (storP.SaveAccess "u1" RedisState.empty accBoth).2
       accBoth.accessToken).2 accBoth.accessToken = .error .notFound ∧
     storP.LoadRefresh (storP.RemoveAccess (storP.SaveAccess "u1" RedisState.empty accBoth).2
       accBoth.accessToken).2 accBoth.refreshToken = .error .notFound) :=
  ⟨rfl, C2_cascade_delete storP "u1" RedisState.empty accBoth rfl⟩

/-- Claim C3: after a successful `SaveAccess` with both tokens set, loading by
the access token and loading by the refresh token produce the same result,
namely the saved record re-hydrated against the current registry state; a
hydrated result keeps every field of the saved record except the client
field, which is the freshly fetched registry client. -/
theorem C3_dual_index (s : Storage) (aid : String) (st : RedisState)
    (d : AccessData) (c : DefaultClient) (h : d.encodable = true)
    (_hboth : d.refreshToken ≠ "")
    (hc : s.GetClient (s.SaveAccess aid st d).2 d.client.getId = .ok c) :
    s.LoadAccess (s.SaveAccess aid st d).2 d.accessToken =
      s.refreshAccessClients (s.SaveAccess aid st d).2 d ∧
    s.LoadRefresh (s.SaveAccess aid st d).2 d.refreshToken =
      s.refreshAccessClients (s.SaveAccess aid st d).2 d ∧
    (d.authorizeData = Option.none →
      s.refreshAccessClients (s.SaveAccess aid st d).2 d =
        .ok (d.setClient (.default c))) ∧
    (∀ d', s.refreshAccessClients (s.SaveAccess aid st d).2 d = .ok d' →
      d'.accessToken = d.accessToken ∧ d'.refreshToken = d.refreshToken ∧
      d'.expiresIn = d.expiresIn ∧ d'.scope = d.scope ∧
      d'.redirectUri = d.redirectUri ∧ d'.createdAt = d.createdAt ∧
      d'.userData = d.userData ∧ d'.parent = d.parent ∧
      d'.client = .default c) := by
  have hla := loadAccessImpl_save_at s aid st d h
  have hlr := loadAccessImpl_save_rt s aid st d h
  refine ⟨?_, ?_, ?_, ?_⟩
  · simp [Storage.LoadAccess, Storage.loadAndRefreshAccess, hla]
  · simp [Storage.LoadRefresh, Storage.loadAndRefreshAccess, hlr]
  · intro hna
    simp [Storage.refreshAccessClients, hc, hna]
  · intro d' hd'
    rcases had : d.authorizeData with _ | ad
    · simp only [Storage.refreshAccessClients, hc, setClient_authorizeData, had] at hd'
      obtain rfl : d.setClient (.default c) = d' := by simpa using hd'
      simp
    · rcases hadc : ad.client with _ | adc
      · simp only [Storage.refreshAccessClients, hc, setClient_authorizeData, had,
          hadc] at hd'
        obtain rfl : d.setClient (.default c) = d' := by simpa using hd'
        simp
      · rcases hgc : s.GetClient (s.SaveAccess aid st d).2 adc.getId with e | c2
        · simp only [Storage.refreshAccessClients, hc, setClient_authorizeData, had,
            hadc, hgc] at hd'
          cases hd'
        · simp only [Storage.refreshAccessClients, hc, setClient_authorizeData, had,
            hadc, hgc] at hd'
          obtain rfl : (d.setClient (.default c)).setAuthClient (some (.default c2)) = d' := by
            simpa using hd'
          simp

/-- Claim C3, witness: the dual-index property evaluated on `accBoth` saved
into a key space where its client `dcC1` is registered. -/
theorem C3_dual_index_witness :
    (accBoth.encodable = true ∧ accBoth.refreshToken ≠ "" ∧
     storP.GetClient (storP.SaveAccess "u1"
         (storP.CreateClient RedisState.empty (.default dcC1)).2 accBoth).2
       accBoth.client.getId = .ok dcC1) ∧
    storP.LoadAccess (storP.SaveAccess "u1"
        (storP.CreateClient RedisState.empty (.default dcC1)).2 accBoth).2
      accBoth.accessToken =
      storP.refreshAccessClients (storP.SaveAccess "u1"
        (storP.CreateClient RedisState.empty (.default dcC1)).2 accBoth).2 accBoth ∧
    storP.refreshAccessClients (storP.SaveAccess "u1"
        (storP.CreateClient RedisState.empty (.default dcC1)).2 accBoth).2 accBoth =
      .ok (accBoth.setClient (.default dcC1)) :=
  ⟨⟨rfl, by decide, rfl⟩,
   (C3_dual_index storP "u1" (storP.CreateClient RedisState.empty (.default dcC1)).2
     accBoth dcC1 rfl (by decide) rfl).1,
   (C3_dual_index storP "u1" (storP.CreateClient RedisState.empty (.default dcC1)).2
     accBoth dcC1 rfl (by decide) rfl).2.2.1 rfl⟩

/-- Claim C4, counterexample: for the non-default client implementation
`Client.custom "c1" "sec"` (a concrete shape whose identity lives in a field
gob does not match to `DefaultClient.Id`), `CreateClient` succeeds but
`GetClient "c1"` returns a `DefaultClient` whose id field is the empty string,
not `"c1"` — the round-trip is not field-for-field for arbitrary Client
implementations, because `GetClient` always decodes into `osin.DefaultClient`. -/
theorem C4_counterexample :
    (storP.CreateClient RedisState.empty (.custom "c1" "sec")).1 = .ok () ∧
    storP.GetClient (storP.CreateClient RedisState.empty (.custom "c1" "sec")).2 "c1" =
      .ok ⟨"", "sec", "", .none⟩ ∧
    (Client.custom "c1" "sec").getId = "c1" ∧
    DefaultClient.id ⟨"", "sec", "", .none⟩ ≠ (Client.custom "c1" "sec").getId :=
  ⟨rfl, rfl, rfl, by decide⟩

/-- Claim C4, amended: the round-trip holds field-for-field for clients of the
default implementation `osin.DefaultClient` (the shape `GetClient` decodes
into); after `CreateClient` of such a client succeeds, `GetClient` of its id
returns exactly its fields. -/
theorem C4_roundtrip_default (s : Storage) (st : RedisState) (c : DefaultClient)
    (h : (Client.default c).encodableTop = true) :
    (s.CreateClient st (.default c)).1 = .ok () ∧
    s.GetClient (s.CreateClient st (.default c)).2 c.id = .ok c := by
  rw [createClient_result s st (.default c) h]
  exact ⟨rfl, getClient_set_self s st (.default c) c.id rfl⟩

/-- Claim C4, witness: the default-client round-trip evaluated on `dcC1`. -/
theorem C4_roundtrip_default_witness :
    (Client.default dcC1).encodableTop = true ∧
    ((storP.CreateClient RedisState.empty (.default dcC1)).1 = .ok () ∧
     storP.GetClient (storP.CreateClient RedisState.empty (.default dcC1)).2 dcC1.id =
       .ok dcC1) :=
  ⟨rfl, C4_roundtrip_default storP RedisState.empty dcC1 rfl⟩

/-- Claim C5: `makeKey` is injective over the namespace tags the code uses
(with arbitrary identifier strings): two calls producing the same
fully-qualified key must agree on both the namespace and the identifier. -/
theorem C5_makeKey_injective (s : Storage) (ns1 id1 ns2 id2 : String)
    (h1 : ns1 ∈ namespaceTags) (h2 : ns2 ∈ namespaceTags)
    (h : s.makeKey ns1 id1 = s.makeKey ns2 id2) : ns1 = ns2 ∧ id1 = id2 :=
  makeKey_inj s ns1 id1 ns2 id2 (tag_colon_free ns1 h1) (tag_colon_free ns2 h2) h

/-- Claim C5, witness: the injectivity theorem applied at a concrete pair. -/
theorem C5_makeKey_injective_witness :
    ("access_token" ∈ namespaceTags ∧
     storP.makeKey "access_token" "x" = storP.makeKey "access_token" "x") ∧
    ("access_token" = "access_token" ∧ "x" = "x") :=
  ⟨⟨by decide, rfl⟩,
   C5_makeKey_injective storP "access_token" "x" "access_token" "x"
     (by decide) (by decide) rfl⟩

/-- Claim C6: hydration is live.  After a successful `SaveAccess` of a record
and then an `UpdateClient` that overwrites the referenced client's stored
attributes (same id, arbitrary new attributes), loading by the access token
reads the stored blob and hydrates it against the CURRENT registry state
(never a copy cached inside the blob): the load equals `refreshAccessClients`
run against the post-update key space, the registry now holds the updated
attributes, and every successful load returns them in its client field.  All
shapes of the embedded AuthorizeData are covered: absent, present without a
client, present with a client (hydrated live from the current registry,
whatever its id), and present with a client of the same id (which then also
carries the updated attributes). -/
theorem C6_hydration_live (s : Storage) (aid : String) (st : RedisState)
    (d : AccessData) (c' : Client) (h : d.encodable = true)
    (hc' : c'.encodableTop = true) (hid : c'.getId = d.client.getId) :
    s.LoadAccess (s.UpdateClient (s.SaveAccess aid st d).2 c').2 d.accessToken =
      s.refreshAccessClients (s.UpdateClient (s.SaveAccess aid st d).2 c').2 d ∧
    s.GetClient (s.UpdateClient (s.SaveAccess aid st d).2 c').2 d.client.getId =
      .ok (gobAsDefaultClient c') ∧
    (∀ d', s.refreshAccessClients (s.UpdateClient (s.SaveAccess aid st d).2 c').2 d =
        .ok d' → d'.client = .default (gobAsDefaultClient c')) ∧
    (d.authorizeData = Option.none →
      s.LoadAccess (s.UpdateClient (s.SaveAccess aid st d).2 c').2 d.accessToken =
        .ok (d.setClient (.default (gobAsDefaultClient c')))) ∧
    (∀ ad, d.authorizeData = some ad → ad.client = Option.none →
      s.LoadAccess (s.UpdateClient (s.SaveAccess aid st d).2 c').2 d.accessToken =
        .ok (d.setClient (.default (gobAsDefaultClient c')))) ∧
    (∀ ad adc d', d.authorizeData = some ad → ad.client = some adc →
      s.refreshAccessClients (s.UpdateClient (s.SaveAccess aid st d).2 c').2 d =
        .ok d' →
      ∃ c2, s.GetClient (s.UpdateClient (s.SaveAccess aid st d).2 c').2 adc.getId =
          .ok c2 ∧
        d' = (d.setClient (.default (gobAsDefaultClient c'))).setAuthClient
          (some (.default c2))) ∧
    (∀ ad adc, d.authorizeData = some ad → ad.client = some adc →
      adc.getId = d.client.getId →
      s.LoadAccess (s.UpdateClient (s.SaveAccess aid st d).2 c').2 d.accessToken =
        .ok ((d.setClient (.default (gobAsDefaultClient c'))).setAuthClient
          (some (.default (gobAsDefaultClient c'))))) := by
  obtain ⟨hat, hrt, hacc⟩ := saveAccess_reads s aid st d h
  have hupd : (s.UpdateClient (s.SaveAccess aid st d).2 c').2 =
      (s.SaveAccess aid st d).2.set (s.makeKey "client" c'.getId) (.clientBlob c') := by
    simp only [Storage.UpdateClient, createClient_result _ _ _ hc']
  have hat2 : ((s.SaveAccess aid st d).2.set (s.makeKey "client" c'.getId)
      (.clientBlob c')) (s.makeKey "access_token" d.accessToken) = some (.str aid) := by
    rw [RedisState.set_ne _ _ _ _ (key_ne_at_client s _ _)]; exact hat
  have hacc2 : ((s.SaveAccess aid st d).2.set (s.makeKey "client" c'.getId)
      (.clientBlob c')) (s.makeKey "access" aid) = some (.accessBlob d) := by
    rw [RedisState.set_ne _ _ _ _ (key_ne_acc_client s _ _)]; exact hacc
  have hload : s.loadAccessImpl ((s.SaveAccess aid st d).2.set
      (s.makeKey "client" c'.getId) (.clientBlob c'))
      (s.makeKey "access_token" d.accessToken) = .ok d := by
    simp [Storage.loadAccessImpl, hat2, hacc2, redisString, redisBytes, decodeAccessData]
  have hgc : s.GetClient ((s.SaveAccess aid st d).2.set
      (s.makeKey "client" c'.getId) (.clientBlob c')) d.client.getId =
      .ok (gobAsDefaultClient c') :=
    getClient_set_self s _ c' d.client.getId hid.symm
  rw [hupd]
  refine ⟨?_, hgc, ?_, ?_, ?_, ?_, ?_⟩
  · simp [Storage.LoadAccess, Storage.loadAndRefreshAccess, hload]
  · intro d' hd'
    rcases had : d.authorizeData with _ | ad
    · simp only [Storage.refreshAccessClients, hgc, setClient_authorizeData, had] at hd'
      obtain rfl : d.setClient (.default (gobAsDefaultClient c')) = d' := by simpa using hd'
      simp
    · rcases hadc : ad.client with _ | adc
      · simp only [Storage.refreshAccessClients, hgc, setClient_authorizeData, had,
          hadc] at hd'
        obtain rfl : d.setClient (.default (gobAsDefaultClient c')) = d' := by
          simpa using hd'
        simp
      · rcases hgc2 : s.GetClient ((s.SaveAccess aid st d).2.set
            (s.makeKey "client" c'.getId) (.clientBlob c')) adc.getId with e | c2
        · simp only [Storage.refreshAccessClients, hgc, setClient_authorizeData, had,
            hadc, hgc2] at hd'
          cases hd'
        · simp only [Storage.refreshAccessClients, hgc, setClient_authorizeData, had,
            hadc, hgc2] at hd'
          obtain rfl : (d.setClient (.default (gobAsDefaultClient c'))).setAuthClient
              (some (.default c2)) = d' := by simpa using hd'
          simp
  · intro hna
    simp [Storage.LoadAccess, Storage.loadAndRefreshAccess, hload,
      Storage.refreshAccessClients, hgc, hna]
  · intro ad hsome hnone
    simp [Storage.LoadAccess, Storage.loadAndRefreshAccess, hload,
      Storage.refreshAccessClients, hgc, hsome, hnone]
  · intro ad adc d' hsome hadc hd'
    rcases hgc2 : s.GetClient ((s.SaveAccess aid st d).2.set
        (s.makeKey "client" c'.getId) (.clientBlob c')) adc.getId with e | c2
    · simp only [Storage.refreshAccessClients, hgc, setClient_authorizeData, hsome,
        hadc, hgc2] at hd'
      cases hd'
    · simp only [Storage.refreshAccessClients, hgc, setClient_authorizeData, hsome,
        hadc, hgc2] at hd'
      obtain rfl : (d.setClient (.default (gobAsDefaultClient c'))).setAuthClient
          (some (.default c2)) = d' := by simpa using hd'
      exact ⟨c2, rfl, rfl⟩
  · intro ad adc hsome hadc hsameid
    have hgc2 : s.GetClient ((s.SaveAccess aid st d).2.set
        (s.makeKey "client" c'.getId) (.clientBlob c')) adc.getId =
        .ok (gobAsDefaultClient c') :=
      getClient_set_self s _ c' adc.getId (hsameid.trans hid.symm)
    simp [Storage.LoadAccess, Storage.loadAndRefreshAccess, hload,
      Storage.refreshAccessClients, hgc, hsome, hadc, hgc2]

/-- Claim C6, witness: hydration-liveness evaluated after client `"c1"` is
overwritten with fresh attributes, on three concrete records covering every
embedded-AuthorizeData shape — `accBoth` (no AuthorizeData), `accAuthNoClient`
(AuthorizeData without a client), and `accWithAuth` (AuthorizeData whose
client is `"c1"` too). -/
theorem C6_hydration_live_witness :
    (accBoth.encodable = true ∧ accAuthNoClient.encodable = true ∧
     accWithAuth.encodable = true ∧ cNew.encodableTop = true ∧
     cNew.getId = accBoth.client.getId ∧ cNew.getId = accAuthNoClient.client.getId ∧
     cNew.getId = accWithAuth.client.getId) ∧
    storP.LoadAccess (storP.UpdateClient (storP.SaveAccess "u1" RedisState.empty accBoth).2
        cNew).2 accBoth.accessToken =
      .ok (accBoth.setClient (.default (gobAsDefaultClient cNew))) ∧
    storP.LoadAccess (storP.UpdateClient (storP.SaveAccess "u3" RedisState.empty
        accAuthNoClient).2 cNew).2 accAuthNoClient.accessToken =
      .ok (accAuthNoClient.setClient (.default (gobAsDefaultClient cNew))) ∧
    storP.LoadAccess (storP.UpdateClient (storP.SaveAccess "u2" RedisState.empty
        accWithAuth).2 cNew).2 accWithAuth.accessToken =
      .ok ((accWithAuth.setClient (.default (gobAsDefaultClient cNew))).setAuthClient
        (some (.default (gobAsDefaultClient cNew)))) :=
  ⟨⟨rfl, rfl, rfl, rfl, rfl, rfl, rfl⟩,
   (C6_hydration_live storP "u1" RedisState.empty accBoth cNew rfl rfl rfl).2.2.2.1 rfl,
   (C6_hydration_live storP "u3" RedisState.empty accAuthNoClient cNew
     rfl rfl rfl).2.2.2.2.1 adNoClient rfl rfl,
   (C6_hydration_live storP "u2" RedisState.empty accWithAuth cNew
     rfl rfl rfl).2.2.2.2.2.2 adC1 (.default dcC1) rfl rfl rfl⟩

/-- Claim C7: when the `auth:<code>` key is absent, `LoadAuthorize` returns
the explicit "token is expired" error, never a zero-value record. -/
theorem C7_loadAuthorize_absent (s : Storage) (st : RedisState) (code : String)
    (h : st (s.makeKey "auth" code) = Option.none) :
    s.LoadAuthorize st code = .error .expired := by
  simp [Storage.LoadAuthorize, h]

/-- Claim C7, witness: loading an unknown code from the empty key space. -/
theorem C7_loadAuthorize_absent_witness :
    RedisState.empty (storP.makeKey "auth" "nope") = Option.none ∧
    storP.LoadAuthorize RedisState.empty "nope" = .error .expired :=
  ⟨rfl, C7_loadAuthorize_absent storP RedisState.empty "nope" rfl⟩

/-- Claim C8: when encoding the AuthorizeData fails, `SaveAuthorize` returns
the encode error and the key space is unchanged (no write happened). -/
theorem C8_saveAuthorize_encode_fail (s : Storage) (st : RedisState)
    (a : AuthorizeData) (h : encodeAuth a = Option.none) :
    s.SaveAuthorize st a = (.error .encodeError, st) := by
  simp [Storage.SaveAuthorize, h]

/-- Claim C8, witness: an authorize record with unencodable user data. -/
theorem C8_saveAuthorize_encode_fail_witness :
    encodeAuth authBad = Option.none ∧
    storP.SaveAuthorize RedisState.empty authBad = (.error .encodeError, RedisState.empty) :=
  ⟨rfl, C8_saveAuthorize_encode_fail storP RedisState.empty authBad rfl⟩

/-- Claim C9: `DeleteClient` and `RemoveAuthorize` are idempotent — both the
first call and a second call on the resulting state (where the key is by then
absent) succeed, since DEL on an absent key is a no-op success. -/
theorem C9_delete_idempotent (s : Storage) (st : RedisState) (client : Client)
    (code : String) :
    (s.DeleteClient st client).1 = .ok () ∧
    (s.DeleteClient st client).2 (s.makeKey "client" client.getId) = Option.none ∧
    (s.DeleteClient (s.DeleteClient st client).2 client).1 = .ok () ∧
    (s.RemoveAuthorize st code).1 = .ok () ∧
    (s.RemoveAuthorize st code).2 (s.makeKey "auth" code) = Option.none ∧
    (s.RemoveAuthorize (s.RemoveAuthorize st code).2 code).1 = .ok () :=
  ⟨rfl, RedisState.del_self st _, rfl, rfl, RedisState.del_self st _, rfl⟩

/-- Claim C10: when the pointer key for a token is absent, `RemoveAccess` and
`RemoveRefresh` fail (the initial `redis.String` GET reports `ErrNil`) and
delete nothing — remove-by-token is not an idempotent no-op on absent keys. -/
theorem C10_remove_absent_errors (s : Storage) (st : RedisState) (t1 t2 : String)
    (h1 : st (s.makeKey "access_token" t1) = Option.none)
    (h2 : st (s.makeKey "refresh_token" t2) = Option.none) :
    s.RemoveAccess st t1 = (.error .notFound, st) ∧
    s.RemoveRefresh st t2 = (.error .notFound, st) := by
  constructor
  · simp [Storage.RemoveAccess, Storage.removeAccessImpl, h1, redisString]
  · simp [Storage.RemoveRefresh, Storage.removeAccessImpl, h2, redisString]

/-- Claim C10, witness: removal of unknown tokens from the empty key space. -/
theorem C10_remove_absent_errors_witness :
    (RedisState.empty (storP.makeKey "access_token" "x") = Option.none ∧
     RedisState.empty (storP.makeKey "refresh_token" "y") = Option.none) ∧
    (storP.RemoveAccess RedisState.empty "x" = (.error .notFound, RedisState.empty) ∧
     storP.RemoveRefresh RedisState.empty "y" = (.error .notFound, RedisState.empty)) :=
  ⟨⟨rfl, rfl⟩, C10_remove_absent_errors storP RedisState.empty "x" "y" rfl rfl⟩

end Osinredis
